import Mathlib

/-!
Verification development for the EduAdvisor backend (two Express handler
variants: `src/server.js` and `src/unnamed/part_000`).

The embedding models:
  * a JSON value type (`Json`) standing for JavaScript values flowing
    through the handlers (request bodies, axios response data, parsed
    upstream text);
  * JavaScript semantics used by the source: truthiness, property access
    (throwing on `null`/`undefined`), optional chaining, `typeof`,
    `String.prototype.trim`, global regex replacement of literal patterns,
    and `JSON.parse` (modelled by an executable recursive-descent parser;
    numeric literals are modelled as integers and `\u` escapes are not
    modelled — no claim depends on either);
  * the four request handlers (recommendations and chat, in each source
    variant) as total functions from the environment credential, the JSON
    request body and an upstream transport function to a `HandlerRun`
    recording the HTTP response sent (or that an exception escaped the
    handler) together with the outbound axios calls performed.
-/

namespace EduAdvisor

/-- JSON/JavaScript values.  JavaScript `undefined` is represented as
`Option.none` at use sites (absent object properties), never as a `Json`
constructor. -/
inductive Json where
  | null
  | bool (b : Bool)
  | num (n : Int)
  | str (s : String)
  | arr (elems : List Json)
  | obj (fields : List (String × Json))

/-- JavaScript truthiness of a possibly-undefined value
(`none` = `undefined`). -/
def jsTruthy : Option Json → Bool
  | none => false
  | some .null => false
  | some (.bool b) => b
  | some (.num n) => n != 0
  | some (.str s) => s != ""
  | some (.arr _) => true
  | some (.obj _) => true

/-- `typeof v === 'string'`. -/
def isStringOpt : Option Json → Bool
  | some (.str _) => true
  | _ => false

/-- `Array.isArray(v)`. -/
def isArrayOpt : Option Json → Bool
  | some (.arr _) => true
  | _ => false

/-- Whether a value is `null` or `undefined`: property access on such a
value throws a `TypeError` in JavaScript. -/
def nullish : Option Json → Bool
  | none => true
  | some .null => true
  | _ => false

/-- Property lookup on a JSON value (no throwing; callers guard with
`nullish`).  Non-objects have no own string-keyed data properties used by
this code, so lookup yields `undefined`. -/
def jsGet (v : Json) (k : String) : Option Json :=
  match v with
  | .obj fields => fields.lookup k
  | _ => none

/-- Optional-chaining property access `v?.k`. -/
def optGet (v : Option Json) (k : String) : Option Json :=
  match v with
  | none => none
  | some .null => none
  | some w => jsGet w k

/-- Optional-chaining index access `v?.[i]`. -/
def optIndex (v : Option Json) (i : Nat) : Option Json :=
  match v with
  | none => none
  | some .null => none
  | some (.arr xs) => xs[i]?
  | some _ => none

/-- Plain property access `v.k`: throws (`.error`) on `null`/`undefined`. -/
def jsAccess (v : Option Json) (k : String) : Except Unit (Option Json) :=
  if nullish v then .error () else .ok (optGet v k)

/-- Plain index access `v[i]`: throws on `null`/`undefined`. -/
def jsIndex (v : Option Json) (i : Nat) : Except Unit (Option Json) :=
  if nullish v then .error () else .ok (optIndex v i)

/-- Destructuring `const { k } = body`: throws when the body is `null`. -/
def jsDestructure (body : Json) (k : String) : Except Unit (Option Json) :=
  match body with
  | .null => .error ()
  | b => .ok (jsGet b k)

/-- Whitespace stripped by `String.prototype.trim` (ASCII fragment). -/
def jsWs (c : Char) : Bool :=
  [' ', '\t', '\n', '\r', '\x0b', '\x0c'].contains c

/-- `String.prototype.trim` on character lists. -/
def jsTrimChars (s : List Char) : List Char :=
  ((s.dropWhile jsWs).reverse.dropWhile jsWs).reverse

/-- `String.prototype.trim`. -/
def jsTrimString (s : String) : String :=
  String.mk (jsTrimChars s.data)

/-- Fueled scanner for `jsReplaceAll`.  The fuel only serves structural
termination: every step consumes at least one character, so fuel equal to
the input length (as supplied by `jsReplaceAll`) never runs out. -/
def jsReplaceAllGo (pat : List Char) : Nat → List Char → List Char
  | _, [] => []
  | 0, s => s
  | fuel + 1, c :: rest =>
    if pat.isPrefixOf (c :: rest) ∧ pat ≠ [] then
      jsReplaceAllGo pat fuel (rest.drop (pat.length - 1))
    else
      c :: jsReplaceAllGo pat fuel rest

/-- `s.replace(/pat/g, '')` for a literal nonempty pattern `pat`: delete
every non-overlapping occurrence, scanning left to right. -/
def jsReplaceAll (pat : List Char) (s : List Char) : List Char :=
  jsReplaceAllGo pat s.length s

/-- The backtick character (written by code point to keep source plain). -/
def backtick : Char := Char.ofNat 96

/-- The literal pattern of `/```json/g`. -/
def patFenceJson : List Char := backtick :: backtick :: backtick :: 'j' :: 's' :: 'o' :: 'n' :: []

/-- The literal pattern of `/```/g`. -/
def patFence : List Char := backtick :: backtick :: backtick :: []

/-- part_000 line 100:
`responseData.replace(/```json/g, '').replace(/```/g, '').trim()`. -/
def cleanChars (s : List Char) : List Char :=
  jsTrimChars (jsReplaceAll patFence (jsReplaceAll patFenceJson s))

/-- String form of `cleanChars`. -/
def cleanString (s : String) : String :=
  String.mk (cleanChars s.data)

/-- JSON token whitespace (`space`, `tab`, `newline`, `carriage return`). -/
def isJsonWs (c : Char) : Bool :=
  [' ', '\t', '\n', '\r'].contains c

/-- Skip JSON whitespace. -/
def skipWs (s : List Char) : List Char := s.dropWhile isJsonWs

/-- Decode a JSON string escape character (a quote, backslash or slash
escapes to itself; `\u` escapes are not modelled). -/
def escChar (e : Char) : Option Char :=
  if e == 'n' then some '\n'
  else if e == 't' then some '\t'
  else if e == 'r' then some '\r'
  else if e == 'b' then some '\x08'
  else if e == 'f' then some '\x0c'
  else if e == '"' || e == '\\' || e == '/' then some e
  else none

/-- Scan a JSON string body after the opening quote; return the decoded
characters and the input after the closing quote. -/
def scanStringBody : List Char → Option (List Char × List Char)
  | [] => none
  | '"' :: rest => some ([], rest)
  | '\\' :: e :: rest =>
    match escChar e with
    | some c => (scanStringBody rest).map (fun p => (c :: p.1, p.2))
    | none => none
  | '\\' :: [] => none
  | c :: rest => (scanStringBody rest).map (fun p => (c :: p.1, p.2))

/-- Scan a run of decimal digits into a natural number (at least one
digit required). -/
def scanDigits : List Char → Nat → Option (Nat × List Char)
  | [], _ => none
  | c :: rest, acc =>
    if c.isDigit then
      let acc' := acc * 10 + (c.toNat - 48)
      match rest with
      | [] => some (acc', [])
      | d :: _ => if d.isDigit then scanDigits rest acc' else some (acc', rest)
    else none

/-- Scan a JSON integer literal (optional minus sign; fractional and
exponent parts are not modelled). -/
def scanNum : List Char → Option (Int × List Char)
  | '-' :: rest =>
    (scanDigits rest 0).map (fun p => (-(Int.ofNat p.1), p.2))
  | s =>
    (scanDigits s 0).map (fun p => (Int.ofNat p.1, p.2))

mutual

/-- Fueled recursive-descent JSON value parser: returns the value and the
unconsumed input. -/
def parseValue : Nat → List Char → Option (Json × List Char)
  | 0, _ => none
  | fuel + 1, s =>
    match skipWs s with
    | 'n' :: r =>
      if ('u' :: 'l' :: 'l' :: []).isPrefixOf r then some (.null, r.drop 3) else none
    | 't' :: r =>
      if ('r' :: 'u' :: 'e' :: []).isPrefixOf r then some (.bool true, r.drop 3) else none
    | 'f' :: r =>
      if ('a' :: 'l' :: 's' :: 'e' :: []).isPrefixOf r then some (.bool false, r.drop 4) else none
    | '"' :: r => (scanStringBody r).map (fun p => (.str (String.mk p.1), p.2))
    | '[' :: r =>
      (match skipWs r with
       | ']' :: r2 => some (.arr [], r2)
       | r2 => (parseElems fuel r2).map (fun p => (.arr p.1, p.2)))
    | '{' :: r =>
      (match skipWs r with
       | '}' :: r2 => some (.obj [], r2)
       | r2 => (parseMembers fuel r2).map (fun p => (.obj p.1, p.2)))
    | s2 => (scanNum s2).map (fun p => (.num p.1, p.2))

/-- Parse one or more comma-separated array elements up to `]`. -/
def parseElems : Nat → List Char → Option (List Json × List Char)
  | 0, _ => none
  | fuel + 1, s =>
    match parseValue fuel s with
    | none => none
    | some (v, r) =>
      match skipWs r with
      | ',' :: r2 => (parseElems fuel r2).map (fun p => (v :: p.1, p.2))
      | ']' :: r2 => some ([v], r2)
      | _ => none

/-- Parse one or more comma-separated object members up to `\x7d`. -/
def parseMembers : Nat → List Char → Option (List (String × Json) × List Char)
  | 0, _ => none
  | fuel + 1, s =>
    match skipWs s with
    | '"' :: r =>
      (match scanStringBody r with
       | none => none
       | some (key, r2) =>
         match skipWs r2 with
         | ':' :: r3 =>
           (match parseValue fuel r3 with
            | none => none
            | some (v, r4) =>
              match skipWs r4 with
              | ',' :: r5 => (parseMembers fuel r5).map
                  (fun p => ((String.mk key, v) :: p.1, p.2))
              | '}' :: r5 => some ([(String.mk key, v)], r5)
              | _ => none)
         | _ => none)
    | _ => none

end

/-- `JSON.parse` on a character list: parse one value and require only
whitespace after it. -/
def parseJsonList (s : List Char) : Option Json :=
  match parseValue (2 * s.length + 8) s with
  | some (j, rest) => if (skipWs rest).isEmpty then some j else none
  | none => none

/-- `JSON.parse` on strings. -/
def parseJson (s : String) : Option Json := parseJsonList s.data

mutual

/-- `String(v)` coercion used when `JSON.parse` receives a non-string
(array elements joined by commas, objects printed opaquely). -/
def jsToString : Json → String
  | .null => "null"
  | .bool true => "true"
  | .bool false => "false"
  | .num n => toString n
  | .str s => s
  | .arr xs => String.intercalate "," (jsToStringArrElems xs)
  | .obj _ => "[object Object]"

/-- `String(v)` for array elements (`null` prints empty inside arrays). -/
def jsToStringArrElems : List Json → List String
  | [] => []
  | .null :: rest => "" :: jsToStringArrElems rest
  | v :: rest => jsToString v :: jsToStringArrElems rest

end

/-- `JSON.parse(v)` where `v` is an arbitrary JavaScript value: a
non-string argument is coerced with `String(v)` first. -/
def jsonParseValue (v : Json) : Option Json := parseJson (jsToString v)

/-- The recommendation system prompt of `src/server.js` (lines 37-76). -/
def serverRecPrompt : String := "\n    You are an expert career and education advisor. Your goal is to provide personalized recommendations based on a user's interests.\n    You MUST respond with a valid JSON object. Do not include any text, explanation, or markdown formatting before or after the JSON object.\n    The JSON object should have two keys: \"careers\" and \"hobbies\".\n    - \"careers\" should be an array of 2-4 career objects.\n    - \"hobbies\" should be an array of 2-3 hobby objects.\n\n    Each career object must have these keys:\n    - \"career\": The name of the career (string).\n    - \"studies\": An array of 3 specific subjects or fields to study for this career (array of strings).\n    - \"icon\": A string containing only the Font Awesome 6 FREE icon classes (e.g., \"fas fa-code\").\n\n    Each hobby object must have these keys:\n    - \"hobby\": The name of the hobby (string).\n    - \"description\": A short, encouraging description (string).\n    - \"icon\": A string containing only the Font Awesome 6 FREE icon classes (e.g., \"fas fa-camera-retro\").\n\n    Example of a valid JSON response:\n    \x7b\n      \"careers\": [\n        \x7b\n          \"career\": \"Software Engineer\",\n          \"studies\": [\"Computer Science\", \"Data Structures and Algorithms\", \"Software Engineering\"],\n          \"icon\": \"fas fa-code\"\n        \x7d,\n        \x7b\n          \"career\": \"Web Developer\",\n          \"studies\": [\"Web Development\", \"User Interface/Experience (UI/UX) Design\", \"Front-end and Back-end Technologies\"],\n          \"icon\": \"fas fa-laptop-code\"\n        \x7d\n      ],\n      \"hobbies\": [\n        \x7b\n          \"hobby\": \"Photography\",\n          \"description\": \"Capture and edit photos to enhance your creativity and attention to detail.\",\n          \"icon\": \"fas fa-camera-retro\"\n        \x7d\n      ]\n    \x7d\n    "

/-- The chat persona prompt of `src/server.js` (line 136). -/
def serverChatPrompt : String := "You are Eva, a friendly and encouraging AI career counselor for the EduAdvisor.Ai website. Keep your responses concise, helpful, and supportive. Do not use markdown formatting."

/-- The recommendation system prompt of `src/unnamed/part_000` (lines 35-79). -/
def p000RecPrompt : String := "\n        You are an expert career and education advisor. Your goal is to provide personalized recommendations based on a user's interests.\n        You MUST respond with a valid JSON object. Do not include any text, explanation, or markdown formatting before or after the JSON object.\n        The JSON object must have two properties: \"careers\" and \"hobbies\".\n\n        1. \"careers\": This must be an array of exactly 2 career objects.\n           Each career object must have the following properties:\n           - \"career\": (string) The name of the career.\n           - \"icon\": (string) The Font Awesome icon name for this career (e.g., \"fas fa-code\", \"fas fa-paint-brush\").\n           - \"studies\": (array of strings) A list of 3-4 recommended subjects or fields of study for this career.\n\n        2. \"hobbies\": This must be an array of exactly 2 hobby objects.\n           Each hobby object must have the following properties:\n           - \"hobby\": (string) The name of the hobby.\n           - \"icon\": (string) The Font Awesome icon name for this hobby (e.g., \"fas fa-book\", \"fas fa-music\").\n           - \"description\": (string) A brief description of the hobby.\n\n        Example of a valid response format:\n        \x7b\n          \"careers\": [\n            \x7b\n              \"career\": \"Software Engineer\",\n              \"icon\": \"fas fa-code\",\n              \"studies\": [\"Computer Science\", \"Software Engineering\", \"Data Structures and Algorithms\"]\n            \x7d,\n            \x7b\n              \"career\": \"Graphic Designer\",\n              \"icon\": \"fas fa-paint-brush\",\n              \"studies\": [\"Visual Arts\", \"Digital Media\", \"Typography\", \"UI/UX Design\"]\n            \x7d\n          ],\n          \"hobbies\": [\n            \x7b\n              \"hobby\": \"Creative Writing\",\n              \"icon\": \"fas fa-pen-nib\",\n              \"description\": \"Explore storytelling and express your ideas through writing.\"\n            \x7d,\n            \x7b\n              \"hobby\": \"Play a Musical Instrument\",\n              \"icon\": \"fas fa-guitar\",\n              \"description\": \"Learn to play an instrument to enhance creativity and discipline.\"\n            \x7d\n          ]\n        \x7d\n    "

/-- The chat persona prompt of `src/unnamed/part_000` (lines 131-138). -/
def p000ChatPrompt : String := "\n        You are Eva, a friendly and knowledgeable AI career counselor for a website called EduAdvisor.Ai.\n        Your tone should be encouraging, helpful, and professional, but not overly robotic.\n        Keep your answers concise and easy to read, ideally in 2-4 sentences.\n        Your primary goal is to answer user questions about careers, skills, education paths, and job searching.\n        If a user asks something outside of this scope, gently guide them back to career-related topics.\n        Do not answer questions about your own nature as an AI or about programming.\n    "

/-- An outbound axios call: URL, JSON payload, and the explicit timeout
option when one is passed (`{ timeout: 15000 }` on the server.js
recommendation path, nothing elsewhere). -/
structure AxiosRequest where
  url : String
  payload : Json
  timeout : Option Nat

/-- Result of an axios call, as the handlers distinguish cases:
2xx success with a data value, an error carrying an upstream response
(non-2xx status), or a transport error with no response (timeout,
connection reset). -/
inductive AxiosResult where
  | success (data : Json)
  | errorResponse (status : Nat) (data : Json)
  | requestError

/-- The HTTP response a handler sends to its client. -/
structure HttpResponse where
  status : Nat
  body : Json

/-- How a handler invocation ends: it sends exactly one response, or an
exception escapes the handler boundary (the request gets no response
from the handler). -/
inductive Outcome where
  | responded (r : HttpResponse)
  | threw

/-- One handler invocation: its outcome and the outbound upstream calls
it performed, in order. -/
structure HandlerRun where
  outcome : Outcome
  calls : List AxiosRequest

/-- The Gemini endpoint URL with the embedded credential. -/
def geminiUrl (key : String) : String :=
  "https://generativelanguage.googleapis.com/v1beta/models/gemini-2.5-flash-preview-05-20:generateContent?key=" ++ key

/-- A `{ error: msg }` response body. -/
def errObj (msg : String) : Json := .obj [("error", .str msg)]

/-- server.js lines 92-93, optional chaining:
`geminiResponse.data.candidates?.[0]` then
`candidate?.content?.parts?.[0]?.text`.  The only throwing access is
`.candidates` on a `null` data value. -/
def serverRawText (data : Json) : Except Unit (Option Json) :=
  match jsAccess (some data) "candidates" with
  | .error e => .error e
  | .ok cands =>
    .ok (optGet (optIndex (optGet (optGet (optIndex cands 0) "content") "parts") 0) "text")

/-- The strict access chain
`resp.data.candidates[0].content.parts[0].text` (part_000 line 97,
server.js chat line 155, part_000 chat line 149): throws whenever an
intermediate value is `null`/`undefined`. -/
def strictChainText (data : Json) : Except Unit (Option Json) :=
  match jsAccess (some data) "candidates" with
  | .error e => .error e
  | .ok cands =>
    match jsIndex cands 0 with
    | .error e => .error e
    | .ok cand =>
      match jsAccess cand "content" with
      | .error e => .error e
      | .ok content =>
        match jsAccess content "parts" with
        | .error e => .error e
        | .ok parts =>
          match jsIndex parts 0 with
          | .error e => .error e
          | .ok part0 => jsAccess part0 "text"

/-- The recommendation payload of `src/server.js` (lines 78-88). -/
def serverRecPayload (interests : String) : Json :=
  .obj [
    ("contents", .arr [.obj [("parts", .arr [.obj [("text", .str ("User interests: " ++ interests))]])]]),
    ("systemInstruction", .obj [("parts", .arr [.obj [("text", .str serverRecPrompt)]])]),
    ("generationConfig", .obj [("responseMimeType", .str "application/json")])]

/-- The recommendation payload of `src/unnamed/part_000` (lines 81-91). -/
def p000RecPayload (interests : String) : Json :=
  .obj [
    ("contents", .arr [.obj [("parts", .arr [.obj [("text", .str ("User's interests: " ++ interests))]])]]),
    ("systemInstruction", .obj [("parts", .arr [.obj [("text", .str p000RecPrompt)]])]),
    ("generationConfig", .obj [("responseMimeType", .str "application/json")])]

/-- The chat payload of `src/server.js` (lines 146-151), given the
already-built `contents` array. -/
def serverChatPayload (contents : List Json) : Json :=
  .obj [
    ("contents", .arr contents),
    ("systemInstruction", .obj [("parts", .arr [.obj [("text", .str serverChatPrompt)]])])]

/-- The chat payload of `src/unnamed/part_000` (lines 140-145):
`contents` is the caller's `history` value, passed through verbatim. -/
def p000ChatPayload (history : Json) : Json :=
  .obj [
    ("contents", history),
    ("systemInstruction", .obj [("parts", .arr [.obj [("text", .str p000ChatPrompt)]])])]

/-- `history.map(item => ({ role: item.role, parts: item.parts }))`
(server.js lines 140-143).  Accessing `.role` on a `null` element throws;
a property whose value is `undefined` is dropped from the serialized
object. -/
def mapTurns : List Json → Except Unit (List Json)
  | [] => .ok []
  | item :: rest =>
    match item with
    | .null => .error ()
    | it =>
      match mapTurns rest with
      | .error e => .error e
      | .ok tail =>
        .ok (.obj ((match jsGet it "role" with
                    | some r => [("role", r)]
                    | none => []) ++
                   (match jsGet it "parts" with
                    | some p => [("parts", p)]
                    | none => [])) :: tail)

/-- Error body of server.js and part_000 recommendation failures. -/
def recFailBody : Json := errObj "Failed to get recommendations from the AI. Please try again later."

/-- Error body of the missing-credential branch on the recommendation
paths (server.js line 28, part_000 line 26). -/
def recConfigBody : Json := errObj "Server configuration error: Missing API key for the AI service."

/-- Error body of the empty-interests branch (server.js line 32). -/
def badInterestsBody : Json := errObj "Interests are required."

/-- `POST /api/recommendations` of `src/server.js` (lines 21-120). -/
def serverRecHandler (apiKey : Option String) (body : Json)
    (upstream : AxiosRequest → AxiosResult) : HandlerRun :=
  match jsDestructure body "interests" with
  | .error _ => { outcome := .threw, calls := [] }
  | .ok interests =>
    match apiKey with
    | none => { outcome := .responded ⟨500, recConfigBody⟩, calls := [] }
    | some key =>
      if key = "" then { outcome := .responded ⟨500, recConfigBody⟩, calls := [] }
      else
        match interests with
        | some (.str s) =>
          if s = "" ∨ jsTrimString s = "" then
            { outcome := .responded ⟨400, badInterestsBody⟩, calls := [] }
          else
            let req : AxiosRequest := ⟨geminiUrl key, serverRecPayload s, some 15000⟩
            match upstream req with
            | .success data =>
              (match serverRawText data with
               | .error _ => { outcome := .responded ⟨500, recFailBody⟩, calls := [req] }
               | .ok rawText =>
                 if jsTruthy rawText then
                   match rawText with
                   | some v =>
                     (match jsonParseValue v with
                      | some recommendations =>
                        { outcome := .responded ⟨200, recommendations⟩, calls := [req] }
                      | none => { outcome := .responded ⟨500, recFailBody⟩, calls := [req] })
                   | none => { outcome := .responded ⟨500, recFailBody⟩, calls := [req] }
                 else
                   { outcome := .responded ⟨500, recFailBody⟩, calls := [req] })
            | .errorResponse _ _ => { outcome := .responded ⟨500, recFailBody⟩, calls := [req] }
            | .requestError => { outcome := .responded ⟨500, recFailBody⟩, calls := [req] }
        | _ => { outcome := .responded ⟨400, badInterestsBody⟩, calls := [] }

/-- `POST /api/recommendations` of `src/unnamed/part_000` (lines 19-115). -/
def p000RecHandler (apiKey : Option String) (body : Json)
    (upstream : AxiosRequest → AxiosResult) : HandlerRun :=
  match jsDestructure body "interests" with
  | .error _ => { outcome := .threw, calls := [] }
  | .ok interests =>
    match apiKey with
    | none => { outcome := .responded ⟨500, recConfigBody⟩, calls := [] }
    | some key =>
      if key = "" then { outcome := .responded ⟨500, recConfigBody⟩, calls := [] }
      else
        match interests with
        | some (.str s) =>
          if s = "" ∨ jsTrimString s = "" then
            { outcome := .responded ⟨400, badInterestsBody⟩, calls := [] }
          else
            let req : AxiosRequest := ⟨geminiUrl key, p000RecPayload s, none⟩
            match upstream req with
            | .success data =>
              (match strictChainText data with
               | .error _ => { outcome := .responded ⟨500, recFailBody⟩, calls := [req] }
               | .ok responseData =>
                 match responseData with
                 | some (.str rd) =>
                   (match parseJson (cleanString rd) with
                    | none => { outcome := .responded ⟨500, recFailBody⟩, calls := [req] }
                    | some jsonData =>
                      if jsTruthy (some jsonData) then
                        if isArrayOpt (jsGet jsonData "careers") ∧ isArrayOpt (jsGet jsonData "hobbies") then
                          { outcome := .responded ⟨200, jsonData⟩, calls := [req] }
                        else
                          { outcome := .responded ⟨500, recFailBody⟩, calls := [req] }
                      else
                        { outcome := .responded ⟨500, recFailBody⟩, calls := [req] })
                 | _ => { outcome := .responded ⟨500, recFailBody⟩, calls := [req] })
            | .errorResponse _ _ => { outcome := .responded ⟨500, recFailBody⟩, calls := [req] }
            | .requestError => { outcome := .responded ⟨500, recFailBody⟩, calls := [req] }
        | _ => { outcome := .responded ⟨400, badInterestsBody⟩, calls := [] }

/-- `POST /api/chat` of `src/server.js` (lines 123-161).  Building
`contents` from `history` happens before the `try` block: a truthy
non-array `history`, or a `null` element, throws past the handler. -/
def serverChatHandler (apiKey : Option String) (body : Json)
    (upstream : AxiosRequest → AxiosResult) : HandlerRun :=
  match jsDestructure body "history" with
  | .error _ => { outcome := .threw, calls := [] }
  | .ok history =>
    match apiKey with
    | none => { outcome := .responded ⟨500, errObj "Server configuration error."⟩, calls := [] }
    | some key =>
      if key = "" then
        { outcome := .responded ⟨500, errObj "Server configuration error."⟩, calls := [] }
      else
        if jsTruthy history then
          match history with
          | some (.arr items) =>
            (match mapTurns items with
             | .error _ => { outcome := .threw, calls := [] }
             | .ok contents =>
               let req : AxiosRequest := ⟨geminiUrl key, serverChatPayload contents, none⟩
               match upstream req with
               | .success data =>
                 (match strictChainText data with
                  | .error _ =>
                    { outcome := .responded ⟨500, errObj "Failed to get a response from the AI counselor."⟩,
                      calls := [req] }
                  | .ok message =>
                    { outcome := .responded ⟨200, .obj (match message with
                        | some m => [("message", m)]
                        | none => [])⟩,
                      calls := [req] })
               | .errorResponse _ _ =>
                 { outcome := .responded ⟨500, errObj "Failed to get a response from the AI counselor."⟩,
                   calls := [req] }
               | .requestError =>
                 { outcome := .responded ⟨500, errObj "Failed to get a response from the AI counselor."⟩,
                   calls := [req] })
          | _ => { outcome := .threw, calls := [] }
        else
          { outcome := .responded ⟨400, errObj "Chat history is required."⟩, calls := [] }

/-- `POST /api/chat` of `src/unnamed/part_000` (lines 118-155): `history`
is forwarded verbatim as `contents`, with no mapping step. -/
def p000ChatHandler (apiKey : Option String) (body : Json)
    (upstream : AxiosRequest → AxiosResult) : HandlerRun :=
  match jsDestructure body "history" with
  | .error _ => { outcome := .threw, calls := [] }
  | .ok history =>
    match apiKey with
    | none => { outcome := .responded ⟨500, errObj "Server configuration error."⟩, calls := [] }
    | some key =>
      if key = "" then
        { outcome := .responded ⟨500, errObj "Server configuration error."⟩, calls := [] }
      else
        match history with
        | some h =>
          if jsTruthy (some h) then
            let req : AxiosRequest := ⟨geminiUrl key, p000ChatPayload h, none⟩
            match upstream req with
            | .success data =>
              (match strictChainText data with
               | .error _ =>
                 { outcome := .responded ⟨500, errObj "Failed to get a response from the AI."⟩,
                   calls := [req] }
               | .ok message =>
                 { outcome := .responded ⟨200, .obj (match message with
                     | some m => [("message", m)]
                     | none => [])⟩,
                   calls := [req] })
            | .errorResponse _ _ =>
              { outcome := .responded ⟨500, errObj "Failed to get a response from the AI."⟩,
                calls := [req] }
            | .requestError =>
              { outcome := .responded ⟨500, errObj "Failed to get a response from the AI."⟩,
                calls := [req] }
          else
            { outcome := .responded ⟨400, errObj "Chat history is required."⟩, calls := [] }
        | none => { outcome := .responded ⟨400, errObj "Chat history is required."⟩, calls := [] }

/-- An axios response data value whose first candidate carries the given
text: `{ candidates: [ { content: { parts: [ { text } ] } } ] }`. -/
def mkUpstreamData (text : String) : Json :=
  .obj [("candidates", .arr [.obj [("content", .obj [("parts", .arr [.obj [("text", .str text)]])])]])]

/-- A recommendation request body `{ interests: v }`. -/
def mkIntBody (v : Json) : Json := .obj [("interests", v)]

/-- A chat request body `{ history: v }`. -/
def mkHistBody (v : Json) : Json := .obj [("history", v)]

/-- `interests` passes the recommendation input check: a string that is
nonempty and not whitespace-only. -/
def goodInterests (s : String) : Bool :=
  !(s == "") && !(jsTrimString s == "")

/-- Whether a JSON value is `null`.  Request bodies delivered by the JSON
body middleware (strict mode) are objects or arrays, never `null`. -/
def isNullJson : Json → Bool
  | .null => true
  | _ => false

theorem jsDestructure_ok (body : Json) (hb : isNullJson body = false) (key : String) :
    jsDestructure body key = .ok (jsGet body key) := by
  cases body <;> simp [jsDestructure, isNullJson] at hb ⊢

/-- C5: for `interests` equal to the empty string or a whitespace-only
string, both variants of the recommendation handler respond 400 with
`\x7b error: 'Interests are required.' \x7d` and perform no outbound
upstream call (given the credential is configured, which is checked
first). -/
theorem c5_blank_interests_rejected (k s : String) (up : AxiosRequest → AxiosResult)
    (hk : (k == "") = false) (hs : (jsTrimString s == "") = true) :
    serverRecHandler (some k) (mkIntBody (.str s)) up =
      { outcome := .responded ⟨400, badInterestsBody⟩, calls := [] } ∧
    p000RecHandler (some k) (mkIntBody (.str s)) up =
      { outcome := .responded ⟨400, badInterestsBody⟩, calls := [] } := by
  simp only [beq_iff_eq] at hs
  simp only [beq_eq_false_iff_ne] at hk
  constructor <;>
    simp [serverRecHandler, p000RecHandler, jsDestructure, mkIntBody, jsGet, hk, hs]

/-- C5 witness at `interests = "   "`. -/
theorem c5_witness :
    serverRecHandler (some "key") (mkIntBody (.str "   ")) (fun _ => .requestError) =
      { outcome := .responded ⟨400, badInterestsBody⟩, calls := [] } ∧
    p000RecHandler (some "key") (mkIntBody (.str "   ")) (fun _ => .requestError) =
      { outcome := .responded ⟨400, badInterestsBody⟩, calls := [] } :=
  c5_blank_interests_rejected "key" "   " (fun _ => .requestError) rfl rfl

/-- C6: when the configured credential is absent (unset or empty), every
request to any of the four handlers receives the 500 configuration-error
response before any network call, regardless of the request body (so also
when the input is invalid), and no exception escapes. -/
theorem c6_missing_key_config_error (k : Option String) (body : Json)
    (up : AxiosRequest → AxiosResult)
    (hb : isNullJson body = false) (hk : k = none ∨ k = some "") :
    serverRecHandler k body up =
      { outcome := .responded ⟨500, recConfigBody⟩, calls := [] } ∧
    p000RecHandler k body up =
      { outcome := .responded ⟨500, recConfigBody⟩, calls := [] } ∧
    serverChatHandler k body up =
      { outcome := .responded ⟨500, errObj "Server configuration error."⟩, calls := [] } ∧
    p000ChatHandler k body up =
      { outcome := .responded ⟨500, errObj "Server configuration error."⟩, calls := [] } := by
  have hd := jsDestructure_ok body hb
  rcases hk with hk | hk <;> subst hk <;>
    refine ⟨?_, ?_, ?_, ?_⟩ <;>
      simp [serverRecHandler, p000RecHandler, serverChatHandler, p000ChatHandler, hd]

/-- C6 witness: missing credential with an invalid (empty) body. -/
theorem c6_witness :
    serverRecHandler none (Json.obj []) (fun _ => .requestError) =
      { outcome := .responded ⟨500, recConfigBody⟩, calls := [] } ∧
    p000RecHandler none (Json.obj []) (fun _ => .requestError) =
      { outcome := .responded ⟨500, recConfigBody⟩, calls := [] } ∧
    serverChatHandler none (Json.obj []) (fun _ => .requestError) =
      { outcome := .responded ⟨500, errObj "Server configuration error."⟩, calls := [] } ∧
    p000ChatHandler none (Json.obj []) (fun _ => .requestError) =
      { outcome := .responded ⟨500, errObj "Server configuration error."⟩, calls := [] } :=
  c6_missing_key_config_error none (Json.obj []) (fun _ => .requestError) rfl (Or.inl rfl)

/-- C10: any non-string `interests` value (number, array, object, boolean,
null) is rejected with 400 by both recommendation-handler variants, with
no upstream call, even when the value is truthy. -/
theorem c10_nonstring_interests_rejected (k : String) (v : Json)
    (up : AxiosRequest → AxiosResult)
    (hk : (k == "") = false) (hv : isStringOpt (some v) = false) :
    serverRecHandler (some k) (mkIntBody v) up =
      { outcome := .responded ⟨400, badInterestsBody⟩, calls := [] } ∧
    p000RecHandler (some k) (mkIntBody v) up =
      { outcome := .responded ⟨400, badInterestsBody⟩, calls := [] } := by
  simp only [beq_eq_false_iff_ne] at hk
  cases v <;> simp [isStringOpt] at hv ⊢ <;>
    simp [serverRecHandler, p000RecHandler, jsDestructure, mkIntBody, jsGet, hk]

/-- C10 witness at `interests = 5`. -/
theorem c10_witness :
    serverRecHandler (some "key") (mkIntBody (.num 5)) (fun _ => .requestError) =
      { outcome := .responded ⟨400, badInterestsBody⟩, calls := [] } ∧
    p000RecHandler (some "key") (mkIntBody (.num 5)) (fun _ => .requestError) =
      { outcome := .responded ⟨400, badInterestsBody⟩, calls := [] } :=
  c10_nonstring_interests_rejected "key" (.num 5) (fun _ => .requestError) rfl rfl

/-- C3 counterexample: the part_000 recommendation handler performs its
upstream call with NO explicit timeout option (the claim asserts the
recommendation path always passes 15000 ms). -/
theorem c3_counterexample :
    ((p000RecHandler (some "k") (mkIntBody (.str "coding"))
        (fun _ => .success (mkUpstreamData "x"))).calls.map AxiosRequest.timeout) = [none] :=
  rfl

/-- C3 (amended): in the server.js variant every recommendation-path
upstream call carries the explicit 15000 ms timeout option and every
chat-path call carries none; in the part_000 variant neither path passes
an explicit timeout option. -/
theorem c3_amended_timeouts (k : Option String) (body : Json)
    (up : AxiosRequest → AxiosResult) :
    ((serverRecHandler k body up).calls.all (fun c => c.timeout == some 15000)) = true ∧
    ((serverChatHandler k body up).calls.all (fun c => c.timeout == none)) = true ∧
    ((p000RecHandler k body up).calls.all (fun c => c.timeout == none)) = true ∧
    ((p000ChatHandler k body up).calls.all (fun c => c.timeout == none)) = true := by
  refine ⟨?_, ?_, ?_, ?_⟩
  · unfold serverRecHandler
    repeat' split
    all_goals try dsimp only []
    repeat' split
    all_goals rfl
  · unfold serverChatHandler
    repeat' split
    all_goals try dsimp only []
    repeat' split
    all_goals rfl
  · unfold p000RecHandler
    repeat' split
    all_goals try dsimp only []
    repeat' split
    all_goals rfl
  · unfold p000ChatHandler
    repeat' split
    all_goals try dsimp only []
    repeat' split
    all_goals rfl

theorem strictChain_mkUpstreamData (t : String) :
    strictChainText (mkUpstreamData t) = .ok (some (.str t)) := rfl

/-- When the strict chain extracts an actual value, the optional chain of
server.js extracts the same value. -/
theorem strictChain_some (data : Json) (v : Json)
    (h : strictChainText data = .ok (some v)) :
    serverRawText data = .ok (some v) := by
  unfold strictChainText jsAccess jsIndex at h
  unfold serverRawText jsAccess
  by_cases h1 : nullish (some data) = true
  · simp [h1] at h
  by_cases h2 : nullish (optGet (some data) "candidates") = true
  · simp [h1, h2] at h
  by_cases h3 : nullish (optIndex (optGet (some data) "candidates") 0) = true
  · simp [h1, h2, h3] at h
  by_cases h4 :
      nullish (optGet (optIndex (optGet (some data) "candidates") 0) "content") = true
  · simp [h1, h2, h3, h4] at h
  by_cases h5 :
      nullish (optGet (optGet (optIndex (optGet (some data) "candidates") 0) "content")
        "parts") = true
  · simp [h1, h2, h3, h4, h5] at h
  by_cases h6 :
      nullish (optIndex
        (optGet (optGet (optIndex (optGet (some data) "candidates") 0) "content") "parts")
        0) = true
  · simp [h1, h2, h3, h4, h5, h6] at h
  simp [h1, h2, h3, h4, h5, h6] at h ⊢
  exact h

/-- Whether the first candidate's first text part of an upstream response
data value is missing or the empty string (per the optional chain). -/
def emptyCandidate (data : Json) : Bool :=
  match serverRawText data with
  | .error _ => true
  | .ok none => true
  | .ok (some (.str s)) => s == ""
  | .ok (some _) => false

/-- C9: when the upstream responds 2xx but the first candidate's first
text part is missing or empty, both recommendation-handler variants
return the uniform 500 `\x7b error \x7d` response rather than a success. -/
theorem c9_empty_candidate_is_error (k s : String) (data : Json)
    (hk : (k == "") = false) (hg : goodInterests s = true)
    (he : emptyCandidate data = true) :
    serverRecHandler (some k) (mkIntBody (.str s)) (fun _ => .success data) =
      { outcome := .responded ⟨500, recFailBody⟩,
        calls := [⟨geminiUrl k, serverRecPayload s, some 15000⟩] } ∧
    p000RecHandler (some k) (mkIntBody (.str s)) (fun _ => .success data) =
      { outcome := .responded ⟨500, recFailBody⟩,
        calls := [⟨geminiUrl k, p000RecPayload s, none⟩] } := by
  simp only [beq_eq_false_iff_ne] at hk
  simp only [goodInterests, Bool.and_eq_true, Bool.not_eq_true', beq_eq_false_iff_ne] at hg
  have hgood : ¬(s = "" ∨ jsTrimString s = "") := by
    rintro (h | h)
    · exact hg.1 h
    · exact hg.2 h
  constructor
  · unfold serverRecHandler
    simp only [jsDestructure, mkIntBody, jsGet, List.lookup, beq_self_eq_true, if_true,
      if_neg hk, if_neg hgood]
    rcases hsr : serverRawText data with e | rt
    · simp [hsr]
    · unfold emptyCandidate at he
      rw [hsr] at he
      rcases rt with _ | v
      · simp [hsr, jsTruthy]
      · rcases v with _ | b | n | x | xs | fs
        all_goals simp at he
        all_goals simp [hsr, jsTruthy, he]
  · unfold p000RecHandler
    simp only [jsDestructure, mkIntBody, jsGet, List.lookup, beq_self_eq_true, if_true,
      if_neg hk, if_neg hgood]
    rcases hsc : strictChainText data with e | rv
    · simp [hsc]
    · rcases rv with _ | v
      · simp [hsc]
      · rcases v with _ | b | n | x | xs | fs
        · simp [hsc]
        · simp [hsc]
        · simp [hsc]
        · have hsrv := strictChain_some data (.str x) hsc
          unfold emptyCandidate at he
          rw [hsrv] at he
          simp only [beq_iff_eq] at he
          subst he
          simp [hsc, show parseJson (cleanString "") = none from rfl]
        · simp [hsc]
        · simp [hsc]

/-- C9 witness: an upstream 2xx whose data has no candidates at all. -/
theorem c9_witness :
    serverRecHandler (some "key") (mkIntBody (.str "coding"))
        (fun _ => .success (Json.obj [])) =
      { outcome := .responded ⟨500, recFailBody⟩,
        calls := [⟨geminiUrl "key", serverRecPayload "coding", some 15000⟩] } ∧
    p000RecHandler (some "key") (mkIntBody (.str "coding"))
        (fun _ => .success (Json.obj [])) =
      { outcome := .responded ⟨500, recFailBody⟩,
        calls := [⟨geminiUrl "key", p000RecPayload "coding", none⟩] } :=
  c9_empty_candidate_is_error "key" "coding" (Json.obj []) rfl rfl rfl

/-- A string with no backtick characters (fence stripping cannot touch
its content). -/
def noBacktick (t : String) : Bool :=
  t.data.all (fun c => c != backtick)

/-- The upstream text wrapped in markdown code fences, as in the spec
example. -/
def fenceWrap (t : String) : String :=
  "```json\n" ++ t ++ "\n```"

theorem jsReplaceAllGo_fuel (pat : List Char) :
    ∀ (fuel fuel' : Nat) (s : List Char), s.length ≤ fuel → s.length ≤ fuel' →
      jsReplaceAllGo pat fuel s = jsReplaceAllGo pat fuel' s := by
  intro fuel
  induction fuel with
  | zero =>
    intro fuel' s hs _
    have h0 : s = [] := List.length_eq_zero.mp (Nat.le_zero.mp hs)
    subst h0
    cases fuel' <;> rfl
  | succ f ih =>
    intro fuel' s hs hs'
    cases s with
    | nil => cases fuel' <;> rfl
    | cons c rest =>
      cases fuel' with
      | zero => simp at hs'
      | succ f' =>
        simp only [jsReplaceAllGo]
        have hlen : rest.length ≤ f := by
          simp only [List.length_cons] at hs
          omega
        have hlen' : rest.length ≤ f' := by
          simp only [List.length_cons] at hs'
          omega
        by_cases hm : pat.isPrefixOf (c :: rest) ∧ pat ≠ []
        · simp only [if_pos hm]
          exact ih f' _ (le_trans (by rw [List.length_drop]; exact Nat.sub_le _ _) hlen)
            (le_trans (by rw [List.length_drop]; exact Nat.sub_le _ _) hlen')
        · simp only [if_neg hm]
          rw [ih f' rest hlen hlen']

theorem jsReplaceAll_nil (pat : List Char) : jsReplaceAll pat [] = [] := rfl

theorem jsReplaceAll_cons_noMatch (pat : List Char) (c : Char) (s : List Char)
    (h : ¬(pat.isPrefixOf (c :: s) ∧ pat ≠ [])) :
    jsReplaceAll pat (c :: s) = c :: jsReplaceAll pat s := by
  simp only [jsReplaceAll, List.length_cons, jsReplaceAllGo, if_neg h]

theorem jsReplaceAll_head_match (c : Char) (cs r : List Char) :
    jsReplaceAll (c :: cs) ((c :: cs) ++ r) = jsReplaceAll (c :: cs) r := by
  have hpre : (c :: cs).isPrefixOf ((c :: cs) ++ r) = true := by
    simp [List.isPrefixOf_iff_prefix]
  show jsReplaceAllGo (c :: cs) ((c :: cs) ++ r).length ((c :: cs) ++ r) = _
  rw [show ((c :: cs) ++ r).length = (cs ++ r).length + 1 from by simp,
    show ((c :: cs) ++ r) = c :: (cs ++ r) from rfl,
    show jsReplaceAllGo (c :: cs) ((cs ++ r).length + 1) (c :: (cs ++ r))
      = if (c :: cs).isPrefixOf (c :: (cs ++ r)) ∧ (c :: cs) ≠ [] then
          jsReplaceAllGo (c :: cs) (cs ++ r).length ((cs ++ r).drop ((c :: cs).length - 1))
        else c :: jsReplaceAllGo (c :: cs) (cs ++ r).length (cs ++ r) from rfl,
    if_pos ⟨by simp only [List.cons_append] at hpre; exact hpre, by simp⟩,
    show (c :: cs).length - 1 = cs.length from by simp,
    List.drop_left cs r]
  exact jsReplaceAllGo_fuel (c :: cs) (cs ++ r).length r.length r
    (by rw [List.length_append]; omega) le_rfl

theorem jsReplaceAll_append_noBT (p : List Char) (t s : List Char)
    (ht : ∀ c ∈ t, (c == backtick) = false) :
    jsReplaceAll (backtick :: p) (t ++ s) = t ++ jsReplaceAll (backtick :: p) s := by
  induction t with
  | nil => simp
  | cons c t ih =>
    have hc : (c == backtick) = false := ht c (List.mem_cons_self c t)
    rw [List.cons_append, jsReplaceAll_cons_noMatch, ih (fun d hd => ht d (List.mem_cons_of_mem c hd)),
      List.cons_append]
    rintro ⟨hpre, -⟩
    simp only [List.isPrefixOf, Bool.and_eq_true, beq_iff_eq] at hpre
    rw [hpre.1] at hc
    simp at hc

theorem jsTrimChars_cons_ws (c : Char) (l : List Char) (h : jsWs c = true) :
    jsTrimChars (c :: l) = jsTrimChars l := by
  simp [jsTrimChars, List.dropWhile_cons, h]

theorem jsTrimChars_concat_ws (c : Char) (l : List Char) (h : jsWs c = true) :
    jsTrimChars (l ++ [c]) = jsTrimChars l := by
  unfold jsTrimChars
  rw [List.dropWhile_append]
  by_cases h0 : (List.dropWhile jsWs l).isEmpty = true
  · rw [if_pos h0]
    have h0' : List.dropWhile jsWs l = [] := by
      cases he : List.dropWhile jsWs l with
      | nil => rfl
      | cons x xs => rw [he] at h0; simp [List.isEmpty] at h0
    rw [h0']
    simp [List.dropWhile_cons, h]
  · rw [if_neg h0, List.reverse_append]
    simp [List.dropWhile_cons, h]

theorem jsReplaceAll_pfj_head (r : List Char) :
    jsReplaceAll patFenceJson (patFenceJson ++ r) = jsReplaceAll patFenceJson r :=
  jsReplaceAll_head_match backtick _ r

theorem jsReplaceAll_pfj_append (t s : List Char) (h : ∀ c ∈ t, (c == backtick) = false) :
    jsReplaceAll patFenceJson (t ++ s) = t ++ jsReplaceAll patFenceJson s :=
  jsReplaceAll_append_noBT _ t s h

theorem jsReplaceAll_pf_append (t s : List Char) (h : ∀ c ∈ t, (c == backtick) = false) :
    jsReplaceAll patFence (t ++ s) = t ++ jsReplaceAll patFence s :=
  jsReplaceAll_append_noBT _ t s h

/-- Fence stripping then trimming a fenced backtick-free text yields the
same result as stripping and trimming the bare text. -/
theorem clean_fenceWrap (t : String) (ht : noBacktick t = true) :
    cleanString (fenceWrap t) = cleanString t := by
  have htc : ∀ c ∈ t.data, (c == backtick) = false := by
    intro c hc
    have h := (List.all_eq_true.mp ht) c hc
    simpa [bne] using h
  have htn : ∀ c ∈ ('\n' :: t.data), (c == backtick) = false := by
    intro c hc
    rcases List.mem_cons.mp hc with h | h
    · subst h
      decide
    · exact htc c h
  have hdata : (fenceWrap t).data
      = patFenceJson ++ (('\n' :: t.data) ++ ('\n' :: patFence)) := by
    show ("```json\n" ++ t ++ "\n```").data = _
    rw [String.data_append, String.data_append]
    have h1 : "```json\n".data = patFenceJson ++ ['\n'] := by decide
    have h2 : "\n```".data = '\n' :: patFence := by decide
    rw [h1, h2]
    simp
  have e1 : jsReplaceAll patFenceJson (fenceWrap t).data
      = ('\n' :: t.data) ++ ('\n' :: patFence) := by
    rw [hdata, jsReplaceAll_pfj_head, jsReplaceAll_pfj_append _ _ htn,
      show jsReplaceAll patFenceJson ('\n' :: patFence) = '\n' :: patFence from by decide]
  have e2 : jsReplaceAll patFence (('\n' :: t.data) ++ ('\n' :: patFence))
      = ('\n' :: t.data) ++ ['\n'] := by
    rw [jsReplaceAll_pf_append _ _ htn,
      show jsReplaceAll patFence ('\n' :: patFence) = ['\n'] from by decide]
  have r1 : jsReplaceAll patFenceJson t.data = t.data := by
    have h := jsReplaceAll_pfj_append t.data [] htc
    simpa [jsReplaceAll_nil] using h
  have r2 : jsReplaceAll patFence t.data = t.data := by
    have h := jsReplaceAll_pf_append t.data [] htc
    simpa [jsReplaceAll_nil] using h
  unfold cleanString cleanChars
  rw [e1, e2, r1, r2]
  congr 1
  rw [show ('\n' :: t.data) ++ ['\n'] = '\n' :: (t.data ++ ['\n']) from rfl,
    jsTrimChars_cons_ws _ _ (by decide), jsTrimChars_concat_ws _ _ (by decide)]

/-- C1 counterexample: in the server.js variant, an upstream reply whose
text parses as JSON but has neither a `careers` nor a `hobbies` array is
returned to the caller verbatim with status 200 — no shape validation and
no 500 occurs, contradicting the claim for this variant. -/
theorem c1_counterexample :
    serverRecHandler (some "k") (mkIntBody (.str "coding"))
        (fun _ => .success (mkUpstreamData "\x7b\"foo\": 1\x7d")) =
      { outcome := .responded ⟨200, .obj [("foo", .num 1)]⟩,
        calls := [⟨geminiUrl "k", serverRecPayload "coding", some 15000⟩] } ∧
    isArrayOpt (jsGet (.obj [("foo", .num 1)]) "careers") = false ∧
    isArrayOpt (jsGet (.obj [("foo", .num 1)]) "hobbies") = false :=
  ⟨rfl, rfl, rfl⟩

/-- C1 (amended): the part_000 variant performs the validation: whenever
the (fence-stripped, trimmed) upstream text parses as JSON but the parsed
value does not have both array-typed `careers` and `hobbies` properties,
the handler responds 500 with the uniform `\x7b error \x7d` body and the
malformed value is not returned.  The server.js variant omits this check
(see the counterexample). -/
theorem c1_amended_p000_validates (k s t : String) (j : Json)
    (hk : (k == "") = false) (hg : goodInterests s = true)
    (hp : parseJson (cleanString t) = some j)
    (hv : (isArrayOpt (jsGet j "careers") && isArrayOpt (jsGet j "hobbies")) = false) :
    p000RecHandler (some k) (mkIntBody (.str s)) (fun _ => .success (mkUpstreamData t)) =
      { outcome := .responded ⟨500, recFailBody⟩,
        calls := [⟨geminiUrl k, p000RecPayload s, none⟩] } := by
  simp only [beq_eq_false_iff_ne] at hk
  simp only [goodInterests, Bool.and_eq_true, Bool.not_eq_true', beq_eq_false_iff_ne] at hg
  have hgood : ¬(s = "" ∨ jsTrimString s = "") := by
    rintro (h | h)
    · exact hg.1 h
    · exact hg.2 h
  have hnand : ¬(isArrayOpt (jsGet j "careers") = true ∧ isArrayOpt (jsGet j "hobbies") = true) := by
    rintro ⟨h1, h2⟩
    rw [h1, h2] at hv
    simp at hv
  have hdj : jsDestructure (mkIntBody (.str s)) "interests" = Except.ok (some (.str s)) := rfl
  unfold p000RecHandler
  simp only [hdj, if_neg hk, if_neg hgood, strictChain_mkUpstreamData]
  rw [hp]
  by_cases ht : jsTruthy (some j) = true <;> simp [ht, hnand]

/-- C1 witness: a parsed array value has no `careers`/`hobbies`
properties, so part_000 rejects it with 500. -/
theorem c1_witness :
    p000RecHandler (some "key") (mkIntBody (.str "coding"))
        (fun _ => .success (mkUpstreamData "[1, 2]")) =
      { outcome := .responded ⟨500, recFailBody⟩,
        calls := [⟨geminiUrl "key", p000RecPayload "coding", none⟩] } :=
  c1_amended_p000_validates "key" "coding" "[1, 2]" (.arr [.num 1, .num 2]) rfl rfl rfl rfl

/-- C2 counterexample: in the server.js variant no fence stripping takes
place (line 100 explicitly dropped it), so a fence-wrapped valid JSON
object makes the request fail with 500, while the unfenced text
succeeds — contradicting the claim for this variant. -/
theorem c2_counterexample :
    (serverRecHandler (some "k") (mkIntBody (.str "music"))
        (fun _ => .success (mkUpstreamData
          (fenceWrap "\x7b\"careers\":[],\"hobbies\":[]\x7d")))).outcome =
      .responded ⟨500, recFailBody⟩ ∧
    (serverRecHandler (some "k") (mkIntBody (.str "music"))
        (fun _ => .success (mkUpstreamData
          "\x7b\"careers\":[],\"hobbies\":[]\x7d"))).outcome =
      .responded ⟨200, .obj [("careers", .arr []), ("hobbies", .arr [])]⟩ :=
  ⟨rfl, rfl⟩

/-- C2 (amended): in the part_000 variant, wrapping backtick-free
upstream text in markdown code fences changes nothing: the handler strips
the fences (and trims) before parsing, so the whole handler run — the
response and the outbound calls — is identical to the run on the unfenced
text. -/
theorem c2_amended_p000_fence_insensitive (k : Option String) (body : Json) (t : String)
    (ht : noBacktick t = true) :
    p000RecHandler k body (fun _ => .success (mkUpstreamData (fenceWrap t))) =
      p000RecHandler k body (fun _ => .success (mkUpstreamData t)) := by
  have hc := clean_fenceWrap t ht
  unfold p000RecHandler
  cases hd : jsDestructure body "interests" with
  | error e => rfl
  | ok interests =>
    cases k with
    | none => rfl
    | some key =>
      by_cases hkey : key = ""
      · simp [hkey]
      · simp only [if_neg hkey]
        cases interests with
        | none => rfl
        | some v =>
          cases v with
          | str s =>
            by_cases hs : s = "" ∨ jsTrimString s = ""
            · simp [hs]
            · simp only [if_neg hs, strictChain_mkUpstreamData]
              rw [hc]
          | null => rfl
          | bool b => rfl
          | num n => rfl
          | arr xs => rfl
          | obj fs => rfl

/-- C2 witness: a concrete fenced JSON object gives the same run as the
bare object in the part_000 variant. -/
theorem c2_witness :
    p000RecHandler (some "key") (mkIntBody (.str "art"))
        (fun _ => .success (mkUpstreamData
          (fenceWrap "\x7b\"careers\":[],\"hobbies\":[]\x7d"))) =
      p000RecHandler (some "key") (mkIntBody (.str "art"))
        (fun _ => .success (mkUpstreamData
          "\x7b\"careers\":[],\"hobbies\":[]\x7d")) :=
  c2_amended_p000_fence_insensitive (some "key") (mkIntBody (.str "art"))
    "\x7b\"careers\":[],\"hobbies\":[]\x7d" rfl

/-- The pure result of the server.js history mapping when no element is
null: one object per turn carrying the turn's `role` and `parts` values
(a property whose value is `undefined` is dropped when serialized). -/
def mapTurnsPure (items : List Json) : List Json :=
  items.map (fun it => .obj ((match jsGet it "role" with
    | some r => [("role", r)]
    | none => []) ++ (match jsGet it "parts" with
    | some p => [("parts", p)]
    | none => [])))

theorem mapTurns_eq_pure (items : List Json)
    (h : items.all (fun it => !(isNullJson it)) = true) :
    mapTurns items = .ok (mapTurnsPure items) := by
  induction items with
  | nil => rfl
  | cons it rest ih =>
    simp only [List.all_cons, Bool.and_eq_true] at h
    have hr := ih h.2
    cases it with
    | null => simp [isNullJson] at h
    | bool b => simp [mapTurns, mapTurnsPure, hr, List.map_cons]
    | num n => simp [mapTurns, mapTurnsPure, hr, List.map_cons]
    | str s => simp [mapTurns, mapTurnsPure, hr, List.map_cons]
    | arr xs => simp [mapTurns, mapTurnsPure, hr, List.map_cons]
    | obj fs => simp [mapTurns, mapTurnsPure, hr, List.map_cons]

/-- A handler run that sent exactly one response, whose body is one of
the given constant error bodies whenever the status is not 200 (so no
exception escapes and no upstream detail reaches the caller). -/
def uniformErrors (run : HandlerRun) (errs : List Json) : Prop :=
  ∃ r, run.outcome = .responded r ∧ (r.status ≠ 200 → r.body ∈ errs)

/-- The `history` values for which the server.js chat handler does not
throw while building `contents`: falsy values, or arrays without `null`
elements. -/
def chatHistoryOK (v : Option Json) : Bool :=
  !(jsTruthy v) || (match v with
    | some (.arr items) => items.all (fun it => !(isNullJson it))
    | _ => false)

/-- C4 counterexample: on the server.js chat path, a truthy non-array
`history` (here the string `hi`) makes `history.map` throw OUTSIDE the
`try` block: the exception escapes the handler boundary and no
`\x7b error \x7d` response is sent, contradicting the claim. -/
theorem c4_counterexample :
    (serverChatHandler (some "k") (mkHistBody (.str "hi"))
        (fun _ => .requestError)).outcome = .threw :=
  rfl

/-- C4 (amended): both recommendation handlers and the part_000 chat
handler always catch every failure and send exactly one response whose
body, when the status is not 200, is one of the handler's constant
`\x7b error \x7d` bodies (never upstream data); the server.js chat
handler does the same PROVIDED `history` is falsy or an array of
non-null turns — a truthy non-array history (or a null element) throws
past its handler boundary. -/
theorem c4_amended_uniform_errors (k : Option String) (body : Json)
    (up : AxiosRequest → AxiosResult) (hb : isNullJson body = false) :
    uniformErrors (serverRecHandler k body up) [recConfigBody, badInterestsBody, recFailBody] ∧
    uniformErrors (p000RecHandler k body up) [recConfigBody, badInterestsBody, recFailBody] ∧
    uniformErrors (p000ChatHandler k body up)
      [errObj "Server configuration error.", errObj "Chat history is required.",
        errObj "Failed to get a response from the AI."] ∧
    (chatHistoryOK (jsGet body "history") = true →
      uniformErrors (serverChatHandler k body up)
        [errObj "Server configuration error.", errObj "Chat history is required.",
          errObj "Failed to get a response from the AI counselor."]) := by
  have hd := jsDestructure_ok body hb
  refine ⟨?_, ?_, ?_, ?_⟩
  · unfold serverRecHandler
    rw [hd]
    dsimp only []
    repeat' split
    all_goals exact ⟨_, rfl, by simp⟩
  · unfold p000RecHandler
    rw [hd]
    dsimp only []
    repeat' split
    all_goals exact ⟨_, rfl, by simp⟩
  · unfold p000ChatHandler
    rw [hd]
    dsimp only []
    repeat' split
    all_goals exact ⟨_, rfl, by simp⟩
  · intro hh
    unfold serverChatHandler
    rw [hd]
    dsimp only []
    cases k with
    | none => exact ⟨_, rfl, by simp⟩
    | some key =>
      by_cases hkey : key = ""
      · simp only [if_pos hkey]
        exact ⟨_, rfl, by simp⟩
      · simp only [if_neg hkey]
        by_cases htr : jsTruthy (jsGet body "history") = true
        · rw [if_pos htr]
          cases hhist : jsGet body "history" with
          | none => rw [hhist] at htr; simp [jsTruthy] at htr
          | some v =>
            rw [hhist] at hh htr
            cases v with
            | arr items =>
              have hall : items.all (fun it => !(isNullJson it)) = true := by
                simpa [chatHistoryOK, jsTruthy] using hh
              dsimp only []
              rw [mapTurns_eq_pure items hall]
              dsimp only []
              repeat' split
              all_goals exact ⟨_, rfl, by simp⟩
            | null => simp [jsTruthy] at htr
            | bool b =>
              simp only [chatHistoryOK] at hh
              rw [htr] at hh
              simp at hh
            | num n =>
              simp only [chatHistoryOK] at hh
              rw [htr] at hh
              simp at hh
            | str s =>
              simp only [chatHistoryOK] at hh
              rw [htr] at hh
              simp at hh
            | obj fs =>
              simp only [chatHistoryOK] at hh
              rw [htr] at hh
              simp at hh
        · rw [if_neg htr]
          exact ⟨_, rfl, by simp⟩

/-- C4 witness: a request whose upstream transport fails still yields a
single constant error response on every non-throwing path. -/
theorem c4_witness :
    uniformErrors (serverRecHandler (some "k") (mkIntBody (.str "x")) (fun _ => .requestError))
      [recConfigBody, badInterestsBody, recFailBody] ∧
    uniformErrors (p000RecHandler (some "k") (mkIntBody (.str "x")) (fun _ => .requestError))
      [recConfigBody, badInterestsBody, recFailBody] ∧
    uniformErrors (p000ChatHandler (some "k") (mkIntBody (.str "x")) (fun _ => .requestError))
      [errObj "Server configuration error.", errObj "Chat history is required.",
        errObj "Failed to get a response from the AI."] ∧
    (chatHistoryOK (jsGet (mkIntBody (.str "x")) "history") = true →
      uniformErrors (serverChatHandler (some "k") (mkIntBody (.str "x")) (fun _ => .requestError))
        [errObj "Server configuration error.", errObj "Chat history is required.",
          errObj "Failed to get a response from the AI counselor."]) :=
  c4_amended_uniform_errors (some "k") (mkIntBody (.str "x")) (fun _ => .requestError) rfl

/-- Whether a JSON value is a string. -/
def isStrJson : Json → Bool
  | .str _ => true
  | _ => false

/-- A career entry per spec section 3: `career` string, `studies` array of
3 strings, `icon` string. -/
def careerEntryOK : Json → Bool
  | .obj fs =>
    (match fs.lookup "career" with
     | some (.str _) => true
     | _ => false)
    && (match fs.lookup "studies" with
        | some (.arr l) => (l.length == 3) && l.all isStrJson
        | _ => false)
    && (match fs.lookup "icon" with
        | some (.str _) => true
        | _ => false)
  | _ => false

/-- A hobby entry per spec section 3: `hobby`, `description`, `icon`
strings. -/
def hobbyEntryOK : Json → Bool
  | .obj fs =>
    (match fs.lookup "hobby" with
     | some (.str _) => true
     | _ => false)
    && (match fs.lookup "description" with
        | some (.str _) => true
        | _ => false)
    && (match fs.lookup "icon" with
        | some (.str _) => true
        | _ => false)
  | _ => false

/-- The RecommendationResult shape required by spec section 3: 2-4 career
entries and 2-3 hobby entries with the required field sets. -/
def recShapeOK : Json → Bool
  | .obj fs =>
    (match fs.lookup "careers" with
     | some (.arr cs) => decide (2 ≤ cs.length) && decide (cs.length ≤ 4) && cs.all careerEntryOK
     | _ => false)
    && (match fs.lookup "hobbies" with
        | some (.arr hs) => decide (2 ≤ hs.length) && decide (hs.length ≤ 3) && hs.all hobbyEntryOK
        | _ => false)
  | _ => false

theorem serverRawText_mkUpstreamData (t : String) :
    serverRawText (mkUpstreamData t) = .ok (some (.str t)) := rfl

/-- C7 (amended): in the server.js variant, for every non-empty trimmed
`interests` and every upstream text parsing as a JSON value of the
required shape, the handler responds 200 with exactly that parsed value,
unchanged (it holds for ANY parseable text — shape checking is absent in
this variant).  The part_000 variant violates pass-through identity for
texts containing backticks (see the counterexample). -/
theorem c7_amended_server_passthrough (k s t : String) (j : Json)
    (hk : (k == "") = false) (hg : goodInterests s = true)
    (hp : parseJson t = some j) (_hshape : recShapeOK j = true) :
    serverRecHandler (some k) (mkIntBody (.str s)) (fun _ => .success (mkUpstreamData t)) =
      { outcome := .responded ⟨200, j⟩,
        calls := [⟨geminiUrl k, serverRecPayload s, some 15000⟩] } := by
  simp only [beq_eq_false_iff_ne] at hk
  simp only [goodInterests, Bool.and_eq_true, Bool.not_eq_true', beq_eq_false_iff_ne] at hg
  have hgood : ¬(s = "" ∨ jsTrimString s = "") := by
    rintro (h | h)
    · exact hg.1 h
    · exact hg.2 h
  have htne : t ≠ "" := by
    intro h
    subst h
    rw [show parseJson "" = none from rfl] at hp
    exact Option.noConfusion hp
  have htt : jsTruthy (some (.str t)) = true := by
    simp [jsTruthy, htne]
  have hdj : jsDestructure (mkIntBody (.str s)) "interests" = Except.ok (some (.str s)) := rfl
  unfold serverRecHandler
  simp only [hdj, if_neg hk, if_neg hgood, serverRawText_mkUpstreamData, htt, if_true]
  simp only [jsonParseValue, jsToString]
  rw [hp]

/-- Upstream text for the C7 counterexample: a shape-valid
RecommendationResult whose first career name contains a markdown fence
sequence inside a JSON string value. -/
def c7text : String := "\x7b\"careers\":[\x7b\"career\":\"```Dev\",\"studies\":[\"CS\",\"Math\",\"SE\"],\"icon\":\"a\"\x7d,\x7b\"career\":\"Artist\",\"studies\":[\"Art\",\"UX\",\"History\"],\"icon\":\"b\"\x7d],\"hobbies\":[\x7b\"hobby\":\"Chess\",\"description\":\"fun\",\"icon\":\"c\"\x7d,\x7b\"hobby\":\"Hiking\",\"description\":\"walk\",\"icon\":\"d\"\x7d]\x7d"

/-- The value `JSON.parse` yields for `c7text`. -/
def c7parsed : Json :=
  .obj [("careers", .arr [
      .obj [("career", .str "```Dev"), ("studies", .arr [.str "CS", .str "Math", .str "SE"]),
        ("icon", .str "a")],
      .obj [("career", .str "Artist"), ("studies", .arr [.str "Art", .str "UX", .str "History"]),
        ("icon", .str "b")]]),
    ("hobbies", .arr [
      .obj [("hobby", .str "Chess"), ("description", .str "fun"), ("icon", .str "c")],
      .obj [("hobby", .str "Hiking"), ("description", .str "walk"), ("icon", .str "d")]])]

/-- What part_000 actually returns for `c7text`: the global fence
stripping deleted the three backticks inside the career-name string. -/
def c7returned : Json :=
  .obj [("careers", .arr [
      .obj [("career", .str "Dev"), ("studies", .arr [.str "CS", .str "Math", .str "SE"]),
        ("icon", .str "a")],
      .obj [("career", .str "Artist"), ("studies", .arr [.str "Art", .str "UX", .str "History"]),
        ("icon", .str "b")]]),
    ("hobbies", .arr [
      .obj [("hobby", .str "Chess"), ("description", .str "fun"), ("icon", .str "c")],
      .obj [("hobby", .str "Hiking"), ("description", .str "walk"), ("icon", .str "d")]])]

set_option maxRecDepth 20000 in
/-- C7 counterexample: in the part_000 variant, an upstream text that is
a syntactically valid JSON object of the required shape is NOT returned
unchanged: the global `/```/g` replacement also rewrites string values,
so the handler responds 200 with a different object than the one the
text parses to. -/
theorem c7_counterexample :
    parseJson c7text = some c7parsed ∧
    recShapeOK c7parsed = true ∧
    p000RecHandler (some "k") (mkIntBody (.str "music"))
        (fun _ => .success (mkUpstreamData c7text)) =
      { outcome := .responded ⟨200, c7returned⟩,
        calls := [⟨geminiUrl "k", p000RecPayload "music", none⟩] } ∧
    c7returned ≠ c7parsed := by
  refine ⟨rfl, rfl, rfl, ?_⟩
  intro h
  have h2 : optGet (optIndex (jsGet c7returned "careers") 0) "career"
      = optGet (optIndex (jsGet c7parsed "careers") 0) "career" := by rw [h]
  rw [show optGet (optIndex (jsGet c7returned "careers") 0) "career"
        = some (Json.str "Dev") from rfl,
    show optGet (optIndex (jsGet c7parsed "careers") 0) "career"
        = some (Json.str "```Dev") from rfl] at h2
  simp at h2

set_option maxRecDepth 20000 in
/-- C7 witness: the same shaped object without backticks passes through
the server.js variant unchanged. -/
theorem c7_witness :
    serverRecHandler (some "key") (mkIntBody (.str "music"))
        (fun _ => .success (mkUpstreamData "\x7b\"careers\":[\x7b\"career\":\"Dev\",\"studies\":[\"CS\",\"Math\",\"SE\"],\"icon\":\"a\"\x7d,\x7b\"career\":\"Artist\",\"studies\":[\"Art\",\"UX\",\"History\"],\"icon\":\"b\"\x7d],\"hobbies\":[\x7b\"hobby\":\"Chess\",\"description\":\"fun\",\"icon\":\"c\"\x7d,\x7b\"hobby\":\"Hiking\",\"description\":\"walk\",\"icon\":\"d\"\x7d]\x7d")) =
      { outcome := .responded ⟨200, c7returned⟩,
        calls := [⟨geminiUrl "key", serverRecPayload "music", some 15000⟩] } :=
  c7_amended_server_passthrough "key" "music"
    "\x7b\"careers\":[\x7b\"career\":\"Dev\",\"studies\":[\"CS\",\"Math\",\"SE\"],\"icon\":\"a\"\x7d,\x7b\"career\":\"Artist\",\"studies\":[\"Art\",\"UX\",\"History\"],\"icon\":\"b\"\x7d],\"hobbies\":[\x7b\"hobby\":\"Chess\",\"description\":\"fun\",\"icon\":\"c\"\x7d,\x7b\"hobby\":\"Hiking\",\"description\":\"walk\",\"icon\":\"d\"\x7d]\x7d"
    c7returned rfl rfl rfl rfl

/-- The server.js history mapping preserves each turn's `role` and
`parts` values, in order. -/
theorem mapTurnsPure_preserves (items : List Json) :
    (mapTurnsPure items).map (fun u => (jsGet u "role", jsGet u "parts"))
      = items.map (fun u => (jsGet u "role", jsGet u "parts")) := by
  induction items with
  | nil => rfl
  | cons it rest ih =>
    simp only [mapTurnsPure, List.map_cons] at ih ⊢
    rw [ih]
    have hhead :
        (jsGet (Json.obj ((match jsGet it "role" with
            | some r => [("role", r)]
            | none => []) ++ (match jsGet it "parts" with
            | some p => [("parts", p)]
            | none => []))) "role",
         jsGet (Json.obj ((match jsGet it "role" with
            | some r => [("role", r)]
            | none => []) ++ (match jsGet it "parts" with
            | some p => [("parts", p)]
            | none => []))) "parts") = (jsGet it "role", jsGet it "parts") := by
      cases hr : jsGet it "role" <;> cases hp : jsGet it "parts" <;>
        simp [jsGet, List.lookup]
    rw [hhead]

/-- C8: chat-handler contract, both variants.  (1) An absent
(undefined/null) `history` is rejected with 400 and no upstream call.
(2) For a history that is an array of non-null turns — including the
empty array — the handler calls the upstream exactly once with the
persona system instruction and the turns as `contents` (server.js maps
each turn to its `role`/`parts`; part_000 forwards the array verbatim),
and returns the upstream's first candidate text verbatim as
`\x7b message \x7d`.  (3) The mapping preserves every turn's `role` and
`parts`, in order. -/
theorem c8_chat_contract (k m : String) (babs : Json) (ts : List Json)
    (up : AxiosRequest → AxiosResult)
    (hk : (k == "") = false) (hbabs : isNullJson babs = false)
    (habs : jsGet babs "history" = none ∨ jsGet babs "history" = some Json.null)
    (hts : ts.all (fun it => !(isNullJson it)) = true) :
    serverChatHandler (some k) babs up =
      { outcome := .responded ⟨400, errObj "Chat history is required."⟩, calls := [] } ∧
    p000ChatHandler (some k) babs up =
      { outcome := .responded ⟨400, errObj "Chat history is required."⟩, calls := [] } ∧
    serverChatHandler (some k) (mkHistBody (.arr ts))
        (fun _ => .success (mkUpstreamData m)) =
      { outcome := .responded ⟨200, .obj [("message", .str m)]⟩,
        calls := [⟨geminiUrl k, serverChatPayload (mapTurnsPure ts), none⟩] } ∧
    p000ChatHandler (some k) (mkHistBody (.arr ts))
        (fun _ => .success (mkUpstreamData m)) =
      { outcome := .responded ⟨200, .obj [("message", .str m)]⟩,
        calls := [⟨geminiUrl k, p000ChatPayload (.arr ts), none⟩] } ∧
    (mapTurnsPure ts).map (fun u => (jsGet u "role", jsGet u "parts"))
      = ts.map (fun u => (jsGet u "role", jsGet u "parts")) := by
  simp only [beq_eq_false_iff_ne] at hk
  have hd := jsDestructure_ok babs hbabs
  have hdh : jsDestructure (mkHistBody (.arr ts)) "history"
      = Except.ok (some (.arr ts)) := rfl
  refine ⟨?_, ?_, ?_, ?_, mapTurnsPure_preserves ts⟩
  · unfold serverChatHandler
    rw [hd]
    rcases habs with h | h <;> rw [h] <;> simp [jsTruthy, hk]
  · unfold p000ChatHandler
    rw [hd]
    rcases habs with h | h <;> rw [h] <;> simp [jsTruthy, hk]
  · unfold serverChatHandler
    rw [hdh]
    dsimp only []
    rw [if_neg hk]
    simp only [jsTruthy, if_true]
    rw [mapTurns_eq_pure ts hts]
    dsimp only []
    simp [strictChainText, mkUpstreamData, jsAccess, jsIndex, nullish, optGet, optIndex,
      jsGet, List.lookup]
  · unfold p000ChatHandler
    rw [hdh]
    dsimp only []
    rw [if_neg hk]
    simp only [jsTruthy, if_true]
    simp [strictChainText, mkUpstreamData, jsAccess, jsIndex, nullish, optGet, optIndex,
      jsGet, List.lookup]

/-- C8 witness: one-turn history round-trips; an empty body is rejected. -/
theorem c8_witness :
    serverChatHandler (some "key") (Json.obj []) (fun _ => .requestError) =
      { outcome := .responded ⟨400, errObj "Chat history is required."⟩, calls := [] } ∧
    p000ChatHandler (some "key") (Json.obj []) (fun _ => .requestError) =
      { outcome := .responded ⟨400, errObj "Chat history is required."⟩, calls := [] } ∧
    serverChatHandler (some "key")
        (mkHistBody (.arr [.obj [("role", .str "user"),
          ("parts", .arr [.obj [("text", .str "hi")]])]]))
        (fun _ => .success (mkUpstreamData "hello")) =
      { outcome := .responded ⟨200, .obj [("message", .str "hello")]⟩,
        calls := [⟨geminiUrl "key",
          serverChatPayload (mapTurnsPure [.obj [("role", .str "user"),
            ("parts", .arr [.obj [("text", .str "hi")]])]]), none⟩] } ∧
    p000ChatHandler (some "key")
        (mkHistBody (.arr [.obj [("role", .str "user"),
          ("parts", .arr [.obj [("text", .str "hi")]])]]))
        (fun _ => .success (mkUpstreamData "hello")) =
      { outcome := .responded ⟨200, .obj [("message", .str "hello")]⟩,
        calls := [⟨geminiUrl "key",
          p000ChatPayload (.arr [.obj [("role", .str "user"),
            ("parts", .arr [.obj [("text", .str "hi")]])]]), none⟩] } ∧
    (mapTurnsPure [.obj [("role", .str "user"),
        ("parts", .arr [.obj [("text", .str "hi")]])]]).map
        (fun u => (jsGet u "role", jsGet u "parts"))
      = [Json.obj [("role", .str "user"),
          ("parts", .arr [.obj [("text", .str "hi")]])]].map
          (fun u => (jsGet u "role", jsGet u "parts")) :=
  c8_chat_contract "key" "hello" (Json.obj [])
    [.obj [("role", .str "user"), ("parts", .arr [.obj [("text", .str "hi")]])]]
    (fun _ => .requestError) rfl rfl (Or.inl rfl) rfl

end EduAdvisor
